import Mathlib

/-!
Shallow embedding of the CHIP-8 virtual-machine core of this repository
(`src/chip8.rs`) and verification of its specification.

Modelling conventions:
* Machine integers become `Nat` with explicit wrapping: `% 256` for `u8`,
  `% 65536` for `u16`, at exactly the spots where the Rust code performs
  arithmetic on those types (release-profile wrapping semantics).
* Arrays (`V`, `stack`, `memory`, `key_states`, `gfx`) become total
  functions out of `Nat`; every Rust indexing expression whose index can
  exceed the array bound is preceded by an explicit bound check, and an
  out-of-bounds access (a Rust panic) is modelled as `none`.
* `rand::random::<u8>()` in the `Cxkk` instruction is modelled as an extra
  input `rand_byte` to the step function.
* `unreachable!()` arms and panicking accesses make the step return `none`.
-/

/-- Pointwise array update, modelling an assignment `a[i] = v`. -/
def upd {α : Type} (f : Nat → α) (i : Nat) (v : α) : Nat → α :=
  fun j => if j = i then v else f j

/-- The machine state, field for field the Rust `struct Chip8`. -/
structure Chip8 where
  V : Nat → Nat
  I : Nat
  delay_timer : Nat
  sound_timer : Nat
  stack : Nat → Nat
  sp : Nat
  pc : Nat
  memory : Nat → Nat
  key_states : Nat → Bool
  gfx : Nat → Bool
  make_beep : Bool

/-- The 80-byte glyph table `CHARACTER_SPRITES` from `src/emu.rs`. -/
def CHARACTER_SPRITES : List Nat :=
  [0xF0, 0x90, 0x90, 0x90, 0xF0,
   0x20, 0x60, 0x20, 0x20, 0x70,
   0xF0, 0x10, 0xF0, 0x80, 0xF0,
   0xF0, 0x10, 0xF0, 0x10, 0xF0,
   0x90, 0x90, 0xF0, 0x10, 0x10,
   0xF0, 0x80, 0xF0, 0x10, 0xF0,
   0xF0, 0x80, 0xF0, 0x90, 0xF0,
   0xF0, 0x10, 0x20, 0x40, 0x40,
   0xF0, 0x90, 0xF0, 0x90, 0xF0,
   0xF0, 0x90, 0xF0, 0x10, 0xF0,
   0xF0, 0x90, 0xF0, 0x90, 0x90,
   0xE0, 0x90, 0xE0, 0x90, 0xE0,
   0xF0, 0x80, 0x80, 0x80, 0xF0,
   0xE0, 0x90, 0x90, 0x90, 0xE0,
   0xF0, 0x80, 0xF0, 0x08, 0xF0,
   0xF0, 0x80, 0xF0, 0x08, 0x80]

/-- Model of `Chip8::new()`: zeroed state, pc at 0x200, glyphs preloaded at 0x00..0x4F. -/
def Chip8.new : Chip8 :=
  { V := fun _ => 0
    I := 0
    delay_timer := 0
    sound_timer := 0
    stack := fun _ => 0
    sp := 0
    pc := 0x200
    memory := fun a => if a < 0x50 then CHARACTER_SPRITES.getD a 0 else 0
    key_states := fun _ => false
    gfx := fun _ => false
    make_beep := false }

/-- Model of `Chip8::get_opcode`: big-endian fetch of two bytes at `pc` and `pc + 1`
(`u16` address arithmetic); an out-of-bounds index is a panic, i.e. `none`. -/
def Chip8.get_opcode (s : Chip8) : Option Nat :=
  if s.pc < 4096 then
    if (s.pc + 1) % 65536 < 4096 then
      some (s.memory s.pc * 256 + s.memory ((s.pc + 1) % 65536))
    else none
  else none

/-- Framebuffer address of sprite row `p.1`, column `p.2`, drawn at `(vx, vy)`:
`((row + vy) % SCREEN_HEIGHT) * 64 + ((col + vx) % SCREEN_WIDTH)`. -/
def pixIdx (vx vy : Nat) (p : Nat × Nat) : Nat :=
  ((p.1 + vy) % 32) * 64 + ((p.2 + vx) % 64)

/-- Sprite bit for row `p.1`, column `p.2`:
`(byte & (0x80 >> col)) >> (7 - col)` with `byte = memory[I + row]`. -/
def pixBit (mem : Nat → Nat) (I : Nat) (p : Nat × Nat) : Nat :=
  (mem (I + p.1) &&& (0x80 >>> p.2)) >>> (7 - p.2)

/-- One iteration of the inner `Dxyn` draw loop: XOR one sprite bit into the
framebuffer and record a collision when a lit pixel is turned off. -/
def drawPix (mem : Nat → Nat) (I vx vy : Nat) (acc : (Nat → Bool) × Bool)
    (p : Nat × Nat) : (Nat → Bool) × Bool :=
  let cur_val : Nat := if acc.1 (pixIdx vx vy p) then 1 else 0
  let new_val : Nat := cur_val ^^^ pixBit mem I p
  (upd acc.1 (pixIdx vx vy p) (new_val == 1),
   if new_val == 0 && cur_val == 1 then true else acc.2)

/-- The full `Dxyn` nested loop (`row` in `0..n`, `col` in `0..8`), returning
the new framebuffer and the collision flag. -/
def drawSprite (mem : Nat → Nat) (I vx vy n : Nat) (gfx : Nat → Bool) :
    (Nat → Bool) × Bool :=
  (List.range n).foldl
    (fun acc row =>
      (List.range 8).foldl (fun acc2 col => drawPix mem I vx vy acc2 (row, col)) acc)
    (gfx, false)

/-- The row-major iteration domain of the `Dxyn` nested loop: all pairs
`(row, col)` with `row < n`, `col < 8`, in the order the loops visit them. -/
def pairs (n : Nat) : List (Nat × Nat) :=
  (List.range n).product (List.range 8)

/-- One iteration of the `Fx0A` wait-for-key loop: for a pressed key `i`,
store `i` into `Vx` and advance the program counter. -/
def keyStep (x : Nat) (st : Chip8) (i : Nat) : Chip8 :=
  if st.key_states i then
    { st with V := upd st.V x i, pc := (st.pc + 2) % 65536 }
  else st

/-- The `execute_opcode` dispatch on an already-fetched `opcode`.
Mirrors the Rust `match` arm for arm; `none` models a panic
(`unreachable!()`, out-of-bounds indexing, stack over/underflow). -/
def dispatch (s : Chip8) (rand_byte : Nat) (opcode : Nat) : Option Chip8 :=
  if opcode &&& 0xF000 = 0x0000 then
    if opcode &&& 0x000F = 0x0000 then
      some { s with gfx := fun _ => false, pc := (s.pc + 2) % 65536 }
    else if opcode &&& 0x000F = 0x000E then
      if (s.sp + 65535) % 65536 < 16 then
        some { s with sp := (s.sp + 65535) % 65536,
                      pc := (s.stack ((s.sp + 65535) % 65536) + 2) % 65536 }
      else none
    else
      some s
  else if opcode &&& 0xF000 = 0x1000 then
    some { s with pc := opcode &&& 0x0FFF }
  else if opcode &&& 0xF000 = 0x2000 then
    if s.sp < 16 then
      some { s with stack := upd s.stack s.sp s.pc,
                    sp := (s.sp + 1) % 65536,
                    pc := opcode &&& 0x0FFF }
    else none
  else if opcode &&& 0xF000 = 0x3000 then
    let x := (opcode &&& 0x0F00) >>> 8
    let kk := opcode &&& 0x00FF
    let pc1 := if s.V x = kk then (s.pc + 2) % 65536 else s.pc
    some { s with pc := (pc1 + 2) % 65536 }
  else if opcode &&& 0xF000 = 0x4000 then
    let x := (opcode &&& 0x0F00) >>> 8
    let kk := opcode &&& 0x00FF
    let pc1 := if s.V x ≠ kk then (s.pc + 2) % 65536 else s.pc
    some { s with pc := (pc1 + 2) % 65536 }
  else if opcode &&& 0xF000 = 0x5000 then
    let x := (opcode &&& 0x0F00) >>> 8
    let y := (opcode &&& 0x00F0) >>> 4
    let pc1 := if s.V x = s.V y then (s.pc + 2) % 65536 else s.pc
    some { s with pc := (pc1 + 2) % 65536 }
  else if opcode &&& 0xF000 = 0x6000 then
    let x := (opcode &&& 0x0F00) >>> 8
    let kk := opcode &&& 0x00FF
    some { s with V := upd s.V x kk, pc := (s.pc + 2) % 65536 }
  else if opcode &&& 0xF000 = 0x7000 then
    let x := (opcode &&& 0x0F00) >>> 8
    let kk := opcode &&& 0x00FF
    some { s with V := upd s.V x ((s.V x + kk) % 256), pc := (s.pc + 2) % 65536 }
  else if opcode &&& 0xF000 = 0x8000 then
    let x := (opcode &&& 0x0F00) >>> 8
    let y := (opcode &&& 0x00F0) >>> 4
    if opcode &&& 0x000F = 0x0000 then
      some { s with V := upd s.V x (s.V y), pc := (s.pc + 2) % 65536 }
    else if opcode &&& 0x000F = 0x0001 then
      some { s with V := upd s.V x (s.V x ||| s.V y), pc := (s.pc + 2) % 65536 }
    else if opcode &&& 0x000F = 0x0002 then
      some { s with V := upd s.V x (s.V x &&& s.V y), pc := (s.pc + 2) % 65536 }
    else if opcode &&& 0x000F = 0x0003 then
      some { s with V := upd s.V x (s.V x ^^^ s.V y), pc := (s.pc + 2) % 65536 }
    else if opcode &&& 0x000F = 0x0004 then
      some { s with V := upd (upd s.V x ((s.V x + s.V y) % 256)) 15
                          (if 255 < s.V x + s.V y then 1 else 0),
                    pc := (s.pc + 2) % 65536 }
    else if opcode &&& 0x000F = 0x0005 then
      some { s with V := upd (upd s.V x ((s.V x + 256 - s.V y) % 256)) 15
                          (if s.V x < s.V y then 0 else 1),
                    pc := (s.pc + 2) % 65536 }
    else if opcode &&& 0x000F = 0x0006 then
      some { s with V := upd (upd s.V x (s.V x / 2)) 15 (s.V x &&& 1),
                    pc := (s.pc + 2) % 65536 }
    else if opcode &&& 0x000F = 0x0007 then
      some { s with V := upd (upd s.V x ((s.V y + 256 - s.V x) % 256)) 15
                          (if s.V y < s.V x then 0 else 1),
                    pc := (s.pc + 2) % 65536 }
    else if opcode &&& 0x000F = 0x000E then
      some { s with V := upd (upd s.V x (s.V x * 2 % 256)) 15 ((s.V x >>> 7) &&& 1),
                    pc := (s.pc + 2) % 65536 }
    else none
  else if opcode &&& 0xF000 = 0x9000 then
    let x := (opcode &&& 0x0F00) >>> 8
    let y := (opcode &&& 0x00F0) >>> 4
    if s.V x ≠ s.V y then
      some { s with pc := (s.pc + 4) % 65536 }
    else
      some { s with pc := (s.pc + 2) % 65536 }
  else if opcode &&& 0xF000 = 0xA000 then
    some { s with I := opcode &&& 0x0FFF, pc := (s.pc + 2) % 65536 }
  else if opcode &&& 0xF000 = 0xB000 then
    some { s with pc := (s.V 0 + (opcode &&& 0x0FFF)) % 65536 }
  else if opcode &&& 0xF000 = 0xC000 then
    let x := (opcode &&& 0x0F00) >>> 8
    let kk := opcode &&& 0x00FF
    some { s with V := upd s.V x ((rand_byte % 256) &&& kk), pc := (s.pc + 2) % 65536 }
  else if opcode &&& 0xF000 = 0xD000 then
    let x := (opcode &&& 0x0F00) >>> 8
    let y := (opcode &&& 0x00F0) >>> 4
    let n := opcode &&& 0x000F
    if s.I + n ≤ 4096 then
      let res := drawSprite s.memory s.I (s.V x) (s.V y) n s.gfx
      some { s with gfx := res.1,
                    V := upd s.V 15 (if res.2 then 1 else 0),
                    pc := (s.pc + 2) % 65536 }
    else none
  else if opcode &&& 0xF000 = 0xE000 then
    let x := (opcode &&& 0x0F00) >>> 8
    if opcode &&& 0x000F = 0x000E then
      if s.V x < 16 then
        let pc1 := if s.key_states (s.V x) then (s.pc + 2) % 65536 else s.pc
        some { s with pc := (pc1 + 2) % 65536 }
      else none
    else if opcode &&& 0x000F = 0x0001 then
      if s.V x < 16 then
        let pc1 := if !s.key_states (s.V x) then (s.pc + 2) % 65536 else s.pc
        some { s with pc := (pc1 + 2) % 65536 }
      else none
    else none
  else if opcode &&& 0xF000 = 0xF000 then
    let x := (opcode &&& 0x0F00) >>> 8
    if opcode &&& 0x00FF = 0x0007 then
      some { s with V := upd s.V x s.delay_timer, pc := (s.pc + 2) % 65536 }
    else if opcode &&& 0x00FF = 0x000A then
      some ((List.range 16).foldl (keyStep x) s)
    else if opcode &&& 0x00FF = 0x0015 then
      some { s with delay_timer := s.V x, pc := (s.pc + 2) % 65536 }
    else if opcode &&& 0x00FF = 0x0018 then
      some { s with sound_timer := s.V x, pc := (s.pc + 2) % 65536 }
    else if opcode &&& 0x00FF = 0x001E then
      some { s with I := (s.I + s.V x) % 65536, pc := (s.pc + 2) % 65536 }
    else if opcode &&& 0x00FF = 0x0029 then
      some { s with I := s.V x * 5 % 256, pc := (s.pc + 2) % 65536 }
    else if opcode &&& 0x00FF = 0x0033 then
      if s.I < 4096 then
        if (s.I + 1) % 65536 < 4096 then
          if (s.I + 2) % 65536 < 4096 then
            let mem1 := upd s.memory s.I (s.V x / 100)
            let mem2 := upd mem1 ((s.I + 1) % 65536) (s.V x / 10 % 10)
            let mem3 := upd mem2 ((s.I + 2) % 65536) (s.V x % 10)
            some { s with memory := mem3, pc := (s.pc + 2) % 65536 }
          else none
        else none
      else none
    else if opcode &&& 0x00FF = 0x0055 then
      if ∀ i < x + 1, (s.I + i) % 65536 < 4096 then
        let mem' := (List.range (x + 1)).foldl
          (fun m i => upd m ((s.I + i) % 65536) (s.V x)) s.memory
        some { s with memory := mem', pc := (s.pc + 2) % 65536 }
      else none
    else if opcode &&& 0x00FF = 0x0065 then
      if ∀ i < x + 1, (s.I + i) % 65536 < 4096 then
        let v' := (List.range (x + 1)).foldl
          (fun v i => upd v x (s.memory ((s.I + i) % 65536))) s.V
        some { s with V := v', pc := (s.pc + 2) % 65536 }
      else none
    else none
  else none

/-- Model of `Chip8::execute_opcode`: fetch, then dispatch. -/
def execute_opcode (s : Chip8) (rand_byte : Nat) : Option Chip8 :=
  match s.get_opcode with
  | none => none
  | some opcode => dispatch s rand_byte opcode

/-- Model of `Chip8::update_timers`. -/
def update_timers (s : Chip8) : Chip8 :=
  let s1 := if 0 < s.delay_timer then { s with delay_timer := s.delay_timer - 1 } else s
  if 0 < s1.sound_timer then
    { s1 with make_beep := if s1.sound_timer = 1 then true else s1.make_beep,
              sound_timer := s1.sound_timer - 1 }
  else s1

/-- Model of `Chip8::tick`: one instruction step followed by one timer-decay step. -/
def tick (s : Chip8) (rand_byte : Nat) : Option Chip8 :=
  (execute_opcode s rand_byte).map update_timers

/-- Lowercase hexadecimal digit character (Rust `{:x}` formatting). -/
def hexLower (n : Nat) : Char :=
  if n < 10 then Char.ofNat (48 + n) else Char.ofNat (87 + n)

/-- Uppercase hexadecimal digit character (Rust `{:X}` formatting). -/
def hexUpper (n : Nat) : Char :=
  if n < 10 then Char.ofNat (48 + n) else Char.ofNat (55 + n)

/-- Three-digit lowercase hex, Rust `{nnn:03x}`. -/
def hex3 (n : Nat) : String :=
  String.mk [hexLower (n / 256 % 16), hexLower (n / 16 % 16), hexLower (n % 16)]

/-- Two-digit lowercase hex, Rust `{kk:02x}`. -/
def hex2 (n : Nat) : String :=
  String.mk [hexLower (n / 16 % 16), hexLower (n % 16)]

/-- One lowercase hex digit, Rust `{n:x}` for a nibble. -/
def hex1 (n : Nat) : String :=
  String.mk [hexLower (n % 16)]

/-- Register operand text `V{x:X}`. -/
def regName (x : Nat) : String :=
  String.mk [Char.ofNat 86, hexUpper (x % 16)]

/-- Mnemonic left-aligned and padded to width 4, Rust `{:4}`. -/
def pad4 (m : String) : String :=
  if m.length < 4 then m ++ String.mk (List.replicate (4 - m.length) (Char.ofNat 32)) else m

/-- Text form `MNEM Vx, Vy` shared by the register-register arms. -/
def rrText (m : String) (opcode : Nat) : String :=
  pad4 m ++ " " ++ regName ((opcode &&& 0x0F00) >>> 8) ++ ", "
    ++ regName ((opcode &&& 0x00F0) >>> 4)

/-- Text form `MNEM Vx, kk` shared by the register-immediate arms. -/
def rkText (m : String) (opcode : Nat) : String :=
  pad4 m ++ " " ++ regName ((opcode &&& 0x0F00) >>> 8) ++ ", "
    ++ hex2 (opcode &&& 0x00FF)

/-- Model of `Chip8::decode_instruction`, arm for arm; `none` models
`unreachable!()`; the default arm of the `0x0000` group is
`String::default()`, the empty string. -/
def decode_instruction (opcode : Nat) : Option String :=
  if opcode &&& 0xF000 = 0x0000 then
    if opcode &&& 0x000F = 0x0000 then some ("CLS")
    else if opcode &&& 0x000F = 0x000E then some ("RET")
    else some ("")
  else if opcode &&& 0xF000 = 0x1000 then
    some (pad4 ("JP") ++ " " ++ hex3 (opcode &&& 0x0FFF))
  else if opcode &&& 0xF000 = 0x2000 then
    some (pad4 ("CALL") ++ " " ++ hex3 (opcode &&& 0x0FFF))
  else if opcode &&& 0xF000 = 0x3000 then
    some (rkText ("SE") opcode)
  else if opcode &&& 0xF000 = 0x4000 then
    some (rkText ("SNE") opcode)
  else if opcode &&& 0xF000 = 0x5000 then
    some (rrText ("SE") opcode)
  else if opcode &&& 0xF000 = 0x6000 then
    some (rkText ("LD") opcode)
  else if opcode &&& 0xF000 = 0x7000 then
    some (rkText ("ADD") opcode)
  else if opcode &&& 0xF000 = 0x8000 then
    if opcode &&& 0x000F = 0x0000 then some (rrText ("LD") opcode)
    else if opcode &&& 0x000F = 0x0001 then some (rrText ("OR") opcode)
    else if opcode &&& 0x000F = 0x0002 then some (rrText ("AND") opcode)
    else if opcode &&& 0x000F = 0x0003 then some (rrText ("XOR") opcode)
    else if opcode &&& 0x000F = 0x0004 then some (rrText ("ADD") opcode)
    else if opcode &&& 0x000F = 0x0005 then some (rrText ("SUB") opcode)
    else if opcode &&& 0x000F = 0x0006 then some (rrText ("SHR") opcode)
    else if opcode &&& 0x000F = 0x0007 then some (rrText ("SUBN") opcode)
    else if opcode &&& 0x000F = 0x000E then some (rrText ("SHL") opcode)
    else none
  else if opcode &&& 0xF000 = 0x9000 then
    some (rrText ("SNE") opcode)
  else if opcode &&& 0xF000 = 0xA000 then
    some (pad4 ("LD") ++ " I, " ++ hex3 (opcode &&& 0x0FFF))
  else if opcode &&& 0xF000 = 0xB000 then
    some (pad4 ("JP") ++ " V0, " ++ hex3 (opcode &&& 0x0FFF))
  else if opcode &&& 0xF000 = 0xC000 then
    some (rkText ("RND") opcode)
  else if opcode &&& 0xF000 = 0xD000 then
    some (pad4 ("DRW") ++ " " ++ regName ((opcode &&& 0x0F00) >>> 8) ++ ", " ++ regName ((opcode &&& 0x00F0) >>> 4) ++ ", "
      ++ hex1 (opcode &&& 0x000F))
  else if opcode &&& 0xF000 = 0xE000 then
    if opcode &&& 0x000F = 0x000E then some (pad4 ("SKP") ++ " " ++ regName ((opcode &&& 0x0F00) >>> 8))
    else if opcode &&& 0x000F = 0x0001 then some (pad4 ("SKNP") ++ " " ++ regName ((opcode &&& 0x0F00) >>> 8))
    else none
  else if opcode &&& 0xF000 = 0xF000 then
    if opcode &&& 0x00FF = 0x0007 then some (pad4 ("LD") ++ " " ++ regName ((opcode &&& 0x0F00) >>> 8) ++ ", DT")
    else if opcode &&& 0x00FF = 0x000A then some (pad4 ("LD") ++ " " ++ regName ((opcode &&& 0x0F00) >>> 8) ++ ", K")
    else if opcode &&& 0x00FF = 0x0015 then some (pad4 ("LD") ++ " DT, " ++ regName ((opcode &&& 0x0F00) >>> 8))
    else if opcode &&& 0x00FF = 0x0018 then some (pad4 ("LD") ++ " ST, " ++ regName ((opcode &&& 0x0F00) >>> 8))
    else if opcode &&& 0x00FF = 0x001E then some (pad4 ("ADD") ++ " I, " ++ regName ((opcode &&& 0x0F00) >>> 8))
    else if opcode &&& 0x00FF = 0x0029 then some (pad4 ("LD") ++ " F, " ++ regName ((opcode &&& 0x0F00) >>> 8))
    else if opcode &&& 0x00FF = 0x0033 then some (pad4 ("LD") ++ " B, " ++ regName ((opcode &&& 0x0F00) >>> 8))
    else if opcode &&& 0x00FF = 0x0055 then some (pad4 ("LD") ++ " [I], " ++ regName ((opcode &&& 0x0F00) >>> 8))
    else if opcode &&& 0x00FF = 0x0065 then some (pad4 ("LD") ++ " " ++ regName ((opcode &&& 0x0F00) >>> 8) ++ ", [I]")
    else none
  else none

/-- The opcode encodings on which `decode_instruction` does not hit an
`unreachable!()` arm, read off the same dispatch structure. -/
def decode_recognized (opcode : Nat) : Bool :=
  if opcode &&& 0xF000 = 0x8000 then
    if opcode &&& 0x000F = 0x0000 then true
    else if opcode &&& 0x000F = 0x0001 then true
    else if opcode &&& 0x000F = 0x0002 then true
    else if opcode &&& 0x000F = 0x0003 then true
    else if opcode &&& 0x000F = 0x0004 then true
    else if opcode &&& 0x000F = 0x0005 then true
    else if opcode &&& 0x000F = 0x0006 then true
    else if opcode &&& 0x000F = 0x0007 then true
    else if opcode &&& 0x000F = 0x000E then true
    else false
  else if opcode &&& 0xF000 = 0xE000 then
    if opcode &&& 0x000F = 0x000E then true
    else if opcode &&& 0x000F = 0x0001 then true
    else false
  else if opcode &&& 0xF000 = 0xF000 then
    if opcode &&& 0x00FF = 0x0007 then true
    else if opcode &&& 0x00FF = 0x000A then true
    else if opcode &&& 0x00FF = 0x0015 then true
    else if opcode &&& 0x00FF = 0x0018 then true
    else if opcode &&& 0x00FF = 0x001E then true
    else if opcode &&& 0x00FF = 0x0029 then true
    else if opcode &&& 0x00FF = 0x0033 then true
    else if opcode &&& 0x00FF = 0x0055 then true
    else if opcode &&& 0x00FF = 0x0065 then true
    else false
  else true

/-- Concrete state: opcode `F155` (store V0..V1 at `I`) with V0 = 0xAA,
V1 = 0xBB and `I = 0x300`. -/
def c1Store : Chip8 :=
  { Chip8.new with
    memory := upd (upd Chip8.new.memory 0x200 0xF1) 0x201 0x55
    V := upd (upd (fun _ => 0) 0 0xAA) 1 0xBB
    I := 0x300 }

/-- Concrete state: opcode `F165` (load V0..V1 from `I`) with
`memory[0x300] = 0xDD`, `memory[0x301] = 0xCC` and `I = 0x300`. -/
def c1Load : Chip8 :=
  { Chip8.new with
    memory := upd (upd (upd (upd Chip8.new.memory 0x200 0xF1) 0x201 0x65) 0x300 0xDD)
                0x301 0xCC
    I := 0x300 }

/-- Concrete state: opcode `0x0001`, an unrecognized system-call opcode. -/
def c2Sys : Chip8 :=
  { Chip8.new with memory := upd (upd Chip8.new.memory 0x200 0x00) 0x201 0x01 }

/-- Concrete state: opcode `0xC0FF` (`RND V0, FF`). -/
def c3Rnd : Chip8 :=
  { Chip8.new with memory := upd (upd Chip8.new.memory 0x200 0xC0) 0x201 0xFF }

/-- Concrete state: opcode `0x3000` (`SE V0, 00`), not in the `Cxkk` group. -/
def c3Skip : Chip8 :=
  { Chip8.new with memory := upd (upd Chip8.new.memory 0x200 0x30) 0x201 0x00 }

/-- Concrete state: opcode `0xF029` (`LD F, V0`) with V0 = 52, so that the
`u8` multiplication `52 * 5 = 260` overflows. -/
def c4Overflow : Chip8 :=
  { Chip8.new with
    memory := upd (upd Chip8.new.memory 0x200 0xF0) 0x201 0x29
    V := upd (fun _ => 0) 0 52 }

/-- Concrete state: opcode `0xF029` (`LD F, V0`) with V0 = 0xA. -/
def c4Glyph : Chip8 :=
  { Chip8.new with
    memory := upd (upd Chip8.new.memory 0x200 0xF0) 0x201 0x29
    V := upd (fun _ => 0) 0 0xA }

/-- Concrete state: opcode `0x8014` (`ADD V0, V1`) with V0 = 0xFF, V1 = 0x01. -/
def c7Add : Chip8 :=
  { Chip8.new with
    memory := upd (upd Chip8.new.memory 0x200 0x80) 0x201 0x14
    V := upd (upd (fun _ => 0) 0 0xFF) 1 0x01 }

/-- Concrete state: opcode `0xD011` (`DRW V0, V1, 1`) at 0x200 and again at
0x202, sprite byte 0x80 at `I = 0x300`, V0 = V1 = 0, empty framebuffer. -/
def c8Draw : Chip8 :=
  { Chip8.new with
    memory := upd (upd (upd (upd (upd Chip8.new.memory
                0x200 0xD0) 0x201 0x11) 0x202 0xD0) 0x203 0x11) 0x300 0x80
    I := 0x300 }

/-- Concrete state: opcode `0x2300` (`CALL 0x300`) at 0x200, with a `RET`
opcode `0x00EE` at 0x300, and an empty call stack. -/
def c9Call : Chip8 :=
  { Chip8.new with
    memory := upd (upd (upd (upd Chip8.new.memory
                0x200 0x23) 0x201 0x00) 0x300 0x00) 0x301 0xEE }

/-- Concrete state: opcode `0xF30A` (`LD V3, K`) with keys 2 and 5 pressed. -/
def c10Wait : Chip8 :=
  { Chip8.new with
    memory := upd (upd Chip8.new.memory 0x200 0xF3) 0x201 0x0A
    key_states := fun i => i = 2 ∨ i = 5 }

/-- Fetching an opcode succeeds only when the program counter is in bounds. -/
theorem get_opcode_pc_lt {s : Chip8} {op : Nat} (h : s.get_opcode = some op) :
    s.pc < 4096 := by
  by_cases hlt : s.pc < 4096
  · exact hlt
  · simp [Chip8.get_opcode, hlt] at h

/-- C1: the claim says `Fx55` writes registers V0..Vx, in order, into memory
at `index..index+x`, and `Fx65` reads memory into V0..Vx. The code instead
uses the fixed register index `x` in both loop bodies: `Fx55` stores the
single value Vx into every one of the x+1 memory cells, and `Fx65` loads
every byte into the single register Vx, leaving V0..V(x-1) untouched. At the
concrete store state (x = 1, V0 = 0xAA, V1 = 0xBB, I = 0x300) the claim
expects `memory[0x300] = 0xAA`; the code yields 0xBB. At the concrete load
state (memory 0xDD, 0xCC at 0x300) the claim expects `V0 = 0xDD`; the code
leaves V0 = 0. The code contradicts its own doc comments ("Store registers
V0 through Vx in memory starting at location I"). -/
theorem store_load_registers_code_bug :
    (((execute_opcode c1Store 0).getD c1Store).memory 0x300 = 0xBB ∧
     ((execute_opcode c1Store 0).getD c1Store).memory 0x301 = 0xBB ∧
     c1Store.V 0 = 0xAA ∧ c1Store.V 1 = 0xBB) ∧
    (((execute_opcode c1Load 0).getD c1Load).V 0 = 0 ∧
     ((execute_opcode c1Load 0).getD c1Load).V 1 = 0xCC ∧
     c1Load.memory 0x300 = 0xDD ∧ c1Load.memory 0x301 = 0xCC) := by
  decide

/-- C2 counterexample: at the concrete state whose current opcode is 0x0001
(top nibble 0, neither 00E0 nor 00EE) the step leaves the program counter at
0x200 instead of advancing it to 0x202 as the claim states. -/
theorem sys_opcode_counterexample :
    (execute_opcode c2Sys 0).map Chip8.pc = some 0x200 ∧
    c2Sys.pc = 0x200 ∧ (0x200 : Nat) ≠ (0x200 + 2) % 65536 := by
  decide

/-- C2 amended: for every machine state whose current opcode has top nibble 0
and low nibble neither 0x0 nor 0xE (the code dispatches this group on the low
nibble only), executing one step changes no field of the machine state at
all — in particular the program counter is NOT advanced — and a full tick
additionally performs only the timer decay. -/
theorem sys_opcode_noop (s : Chip8) (r op : Nat)
    (hop : s.get_opcode = some op)
    (h0 : op &&& 0xF000 = 0x0000)
    (hn0 : op &&& 0x000F ≠ 0x0000)
    (hnE : op &&& 0x000F ≠ 0x000E) :
    execute_opcode s r = some s ∧ tick s r = some (update_timers s) := by
  have he : execute_opcode s r = some s := by
    simp [execute_opcode, hop, dispatch, h0, hn0, hnE]
  exact ⟨he, by simp [tick, he]⟩

/-- Witness for the amended theorem of C2 at the concrete opcode-0x0001 state. -/
theorem sys_opcode_noop_witness :
    execute_opcode c2Sys 0 = some c2Sys ∧ tick c2Sys 0 = some (update_timers c2Sys) :=
  sys_opcode_noop c2Sys 0 0x0001 (by decide) (by decide) (by decide) (by decide)

/-- C4 counterexample: with V0 = 52 the opcode `F029` sets the index register
to `(52 * 5) mod 256 = 4` (the multiplication is performed on `u8`), not to
`52 * 5 = 260` as the claim states for every 8-bit value of Vx. -/
theorem ld_f_overflow_counterexample :
    (execute_opcode c4Overflow 0).map Chip8.I = some 4 ∧
    c4Overflow.V 0 * 5 = 260 ∧ (4 : Nat) ≠ 260 := by
  decide

/-- C4 amended: `Fx29` sets the index register to `(Vx * 5) mod 256` — the
multiplication is done in `u8`, so it wraps (release profile; a debug build
would abort) — which equals `Vx * 5` whenever `Vx ≤ 51`, in particular for
every glyph digit 0x0..0xF. -/
theorem ld_f_sets_index_mod (s : Chip8) (r op : Nat)
    (hop : s.get_opcode = some op)
    (hF : op &&& 0xF000 = 0xF000)
    (h29 : op &&& 0x00FF = 0x0029) :
    execute_opcode s r =
      some { s with I := s.V ((op &&& 0x0F00) >>> 8) * 5 % 256,
                    pc := (s.pc + 2) % 65536 } ∧
    (s.V ((op &&& 0x0F00) >>> 8) ≤ 51 →
      s.V ((op &&& 0x0F00) >>> 8) * 5 % 256 = s.V ((op &&& 0x0F00) >>> 8) * 5) := by
  constructor
  · simp [execute_opcode, hop, dispatch, hF, h29]
  · intro h
    exact Nat.mod_eq_of_lt (by omega)

/-- Witness for the amended theorem of C4: Vx = 0xA yields index 50. -/
theorem ld_f_sets_index_witness :
    execute_opcode c4Glyph 0 =
      some { c4Glyph with I := c4Glyph.V ((0xF029 &&& 0x0F00) >>> 8) * 5 % 256,
                          pc := (c4Glyph.pc + 2) % 65536 } ∧
    (c4Glyph.V ((0xF029 &&& 0x0F00) >>> 8) ≤ 51 →
      c4Glyph.V ((0xF029 &&& 0x0F00) >>> 8) * 5 % 256
        = c4Glyph.V ((0xF029 &&& 0x0F00) >>> 8) * 5) :=
  ld_f_sets_index_mod c4Glyph 0 0xF029 (by decide) (by decide) (by decide)

/-- C5 counterexample: `decode_instruction` is not total on the 16-bit opcode
space — encodings whose sub-case is not recognized inside a matched primary
group hit `unreachable!()` (modelled as `none`): 0x8008, 0xE002 and 0xF0FF
all panic. -/
theorem decode_unrecognized_counterexample :
    decode_instruction 0x8008 = none ∧
    decode_instruction 0xE002 = none ∧
    decode_instruction 0xF0FF = none := by
  decide

set_option maxHeartbeats 3200000 in
/-- C5 amended: `decode_instruction` depends only on the opcode value; for
an opcode in any primary group other than 8/E/F it always returns a string,
and for the three sub-dispatched groups it returns a string precisely on the
encodings `decode_recognized` accepts — on the rest (low nibble of an `8xxx`
opcode outside 0x0..0x7 and 0xE, low nibble of an `Exxx` opcode outside
{0x1, 0xE}, low byte of an `Fxxx` opcode outside the nine recognized
values) it panics via `unreachable!()`, so it is not total. -/
theorem decode_total_by_group (op : Nat) :
    (op &&& 0xF000 = 0x0000 → (decode_instruction op).isSome = true) ∧
    (op &&& 0xF000 = 0x1000 → (decode_instruction op).isSome = true) ∧
    (op &&& 0xF000 = 0x2000 → (decode_instruction op).isSome = true) ∧
    (op &&& 0xF000 = 0x3000 → (decode_instruction op).isSome = true) ∧
    (op &&& 0xF000 = 0x4000 → (decode_instruction op).isSome = true) ∧
    (op &&& 0xF000 = 0x5000 → (decode_instruction op).isSome = true) ∧
    (op &&& 0xF000 = 0x6000 → (decode_instruction op).isSome = true) ∧
    (op &&& 0xF000 = 0x7000 → (decode_instruction op).isSome = true) ∧
    (op &&& 0xF000 = 0x9000 → (decode_instruction op).isSome = true) ∧
    (op &&& 0xF000 = 0xA000 → (decode_instruction op).isSome = true) ∧
    (op &&& 0xF000 = 0xB000 → (decode_instruction op).isSome = true) ∧
    (op &&& 0xF000 = 0xC000 → (decode_instruction op).isSome = true) ∧
    (op &&& 0xF000 = 0xD000 → (decode_instruction op).isSome = true) ∧
    (op &&& 0xF000 = 0x8000 → (decode_instruction op).isSome = decode_recognized op) ∧
    (op &&& 0xF000 = 0xE000 → (decode_instruction op).isSome = decode_recognized op) ∧
    (op &&& 0xF000 = 0xF000 → (decode_instruction op).isSome = decode_recognized op) := by
  refine ⟨?_, ?_, ?_, ?_, ?_, ?_, ?_, ?_, ?_, ?_, ?_, ?_, ?_, ?_, ?_, ?_⟩ <;>
    intro h <;>
    simp [decode_instruction, decode_recognized, h] <;>
    split_ifs <;>
    simp_all

/-- Witness for the amended theorem of C5 at the concrete opcode 0x8004. -/
theorem decode_total_by_group_witness :
    (decode_instruction 0x8004).isSome = decode_recognized 0x8004 :=
  (decode_total_by_group 0x8004).2.2.2.2.2.2.2.2.2.2.2.2.2.1 (by decide)

/-- C6: a tick is exactly one instruction step followed by one timer-decay
step; the decay decrements `delay_timer` iff it is positive, decrements
`sound_timer` iff it is positive (never below zero), and sets `make_beep`
exactly when `sound_timer` was 1 before the decrement, leaving it untouched
otherwise. -/
theorem tick_timer_decay (s : Chip8) (r : Nat) :
    tick s r = (execute_opcode s r).map update_timers ∧
    (update_timers s).delay_timer
      = (if 0 < s.delay_timer then s.delay_timer - 1 else s.delay_timer) ∧
    (update_timers s).sound_timer
      = (if 0 < s.sound_timer then s.sound_timer - 1 else s.sound_timer) ∧
    (update_timers s).make_beep
      = (if s.sound_timer = 1 then true else s.make_beep) := by
  refine ⟨rfl, ?_, ?_, ?_⟩ <;>
    unfold update_timers <;>
    by_cases h1 : 0 < s.delay_timer <;>
    by_cases h2 : 0 < s.sound_timer <;>
    by_cases h3 : s.sound_timer = 1 <;>
    simp [h1, h2, h3]

/-- C3 counterexample: at the concrete state whose current opcode is `C0FF`
(`RND V0, FF`), two ticks from the identical pre-state with different random
draws produce different machine states, so the successor state is not a
function of the pre-state alone. -/
theorem tick_nondeterministic_rnd : tick c3Rnd 0 ≠ tick c3Rnd 1 := by
  intro h
  exact absurd (congrArg (fun o => (o.getD c3Rnd).V 0) h) (by decide)

/-- C3 amended: `tick` is deterministic given the random byte — the successor
state is a function of the pre-state and the byte drawn by `rand::random` —
and whenever the current opcode is not in the `Cxkk` random group the random
byte is irrelevant, so the successor is a function of the pre-state alone. -/
theorem tick_deterministic_of_not_rnd (s : Chip8) (r1 r2 op : Nat)
    (hop : s.get_opcode = some op) (hC : op &&& 0xF000 ≠ 0xC000) :
    tick s r1 = tick s r2 := by
  have hd : dispatch s r1 op = dispatch s r2 op := by
    unfold dispatch
    simp only [if_neg hC]
  simp [tick, execute_opcode, hop, hd]

/-- Witness for the amended theorem of C3 at a concrete `SE V0, 00` state. -/
theorem tick_deterministic_witness : tick c3Skip 0 = tick c3Skip 1 :=
  tick_deterministic_of_not_rnd c3Skip 0 1 0x3000 (by decide) (by decide)

/-- C7: `8xy4` sets Vx to `(Vx + Vy) mod 256`, writes the carry flag
`VF = 1` iff the pre-instruction sum exceeds 255 (`VF = 0` otherwise), and
the flag write comes after the destination write, so when x = 15 the final
V15 is the flag. -/
theorem add_vx_vy_carry (s : Chip8) (r op x y : Nat)
    (hop : s.get_opcode = some op)
    (h8 : op &&& 0xF000 = 0x8000) (h4 : op &&& 0x000F = 0x0004)
    (hx : x = (op &&& 0x0F00) >>> 8) (hy : y = (op &&& 0x00F0) >>> 4) :
    execute_opcode s r ≠ none ∧
    ((execute_opcode s r).getD s).V 15 = (if 255 < s.V x + s.V y then 1 else 0) ∧
    (x ≠ 15 → ((execute_opcode s r).getD s).V x = (s.V x + s.V y) % 256) ∧
    ((execute_opcode s r).getD s).pc = (s.pc + 2) % 65536 := by
  subst hx hy
  have he : execute_opcode s r = some { s with
      V := upd (upd s.V ((op &&& 0x0F00) >>> 8)
             ((s.V ((op &&& 0x0F00) >>> 8) + s.V ((op &&& 0x00F0) >>> 4)) % 256)) 15
             (if 255 < s.V ((op &&& 0x0F00) >>> 8) + s.V ((op &&& 0x00F0) >>> 4)
              then 1 else 0),
      pc := (s.pc + 2) % 65536 } := by
    simp [execute_opcode, hop, dispatch, h8, h4]
  rw [he]
  refine ⟨by simp, by simp [upd], ?_, rfl⟩
  intro hne
  simp [upd, hne]

/-- Witness for C7 at the example of the spec, Vx = 0xFF, Vy = 0x01. -/
theorem add_vx_vy_carry_witness :
    execute_opcode c7Add 0 ≠ none ∧
    ((execute_opcode c7Add 0).getD c7Add).V 15
      = (if 255 < c7Add.V 0 + c7Add.V 1 then 1 else 0) ∧
    ((0 : Nat) ≠ 15 → ((execute_opcode c7Add 0).getD c7Add).V 0
      = (c7Add.V 0 + c7Add.V 1) % 256) ∧
    ((execute_opcode c7Add 0).getD c7Add).pc = (c7Add.pc + 2) % 65536 :=
  add_vx_vy_carry c7Add 0 0x8014 0 1 (by decide) (by decide) (by decide)
    (by decide) (by decide)
/-- Executing a `2nnn` call pushes the pre-advance program counter, bumps
the stack pointer and jumps to `nnn`. -/
theorem call_step (s : Chip8) (r op : Nat) (hop : s.get_opcode = some op)
    (hcall : op &&& 0xF000 = 0x2000) (hsp : s.sp < 16) :
    execute_opcode s r = some { s with stack := upd s.stack s.sp s.pc,
                                       sp := (s.sp + 1) % 65536,
                                       pc := op &&& 0x0FFF } := by
  simp [execute_opcode, hop, dispatch, hcall, hsp]

/-- Executing a return opcode (top nibble 0, low nibble E) pops the stack
into the program counter and advances it by 2. -/
theorem ret_step (s : Chip8) (r op : Nat) (hop : s.get_opcode = some op)
    (h0 : op &&& 0xF000 = 0x0000) (hE : op &&& 0x000F = 0x000E)
    (hsp : (s.sp + 65535) % 65536 < 16) :
    execute_opcode s r = some { s with sp := (s.sp + 65535) % 65536,
                                       pc := (s.stack ((s.sp + 65535) % 65536) + 2) % 65536 } := by
  simp [execute_opcode, hop, dispatch, h0, hE, hsp]

/-- C9: `call addr` pushes the pre-advance program counter and bumps the
stack pointer, and an immediately following `return` (an opcode with top
nibble 0 and low nibble E fetched at the call target) pops it back: the
program counter ends at the instruction after the call (call site + 2) and
the stack pointer at its pre-call value, for every nesting level sp < 16. -/
theorem call_return_roundtrip (s : Chip8) (r1 r2 op op2 : Nat)
    (hop : s.get_opcode = some op) (hcall : op &&& 0xF000 = 0x2000) (hsp : s.sp < 16)
    (hop2 : ((execute_opcode s r1).getD s).get_opcode = some op2)
    (h0 : op2 &&& 0xF000 = 0x0000) (hE : op2 &&& 0x000F = 0x000E) :
    execute_opcode s r1 ≠ none ∧
    execute_opcode ((execute_opcode s r1).getD s) r2 ≠ none ∧
    ((execute_opcode ((execute_opcode s r1).getD s) r2).getD s).pc = s.pc + 2 ∧
    ((execute_opcode ((execute_opcode s r1).getD s) r2).getD s).sp = s.sp := by
  have hpc := get_opcode_pc_lt hop
  have he1 := call_step s r1 op hop hcall hsp
  rw [he1] at hop2 ⊢
  simp only [Option.getD_some] at hop2 ⊢
  have hglt : (((s.sp + 1) % 65536) + 65535) % 65536 < 16 := by omega
  have hX : (((s.sp + 1) % 65536) + 65535) % 65536 = s.sp := by omega
  have he2 := ret_step { s with stack := upd s.stack s.sp s.pc,
                                sp := (s.sp + 1) % 65536,
                                pc := op &&& 0x0FFF } r2 op2 hop2 h0 hE hglt
  rw [he2]
  simp only [Option.getD_some]
  refine ⟨by simp, by simp, ?_, by simpa using hX⟩
  show (upd s.stack s.sp s.pc (((s.sp + 1) % 65536 + 65535) % 65536) + 2) % 65536
    = s.pc + 2
  rw [hX]
  simp [upd]
  omega

/-- Witness for C9: `CALL 0x300` at 0x200 with `RET` at 0x300 returns to
0x202 with the stack pointer restored to 0. -/
theorem call_return_roundtrip_witness :
    execute_opcode c9Call 0 ≠ none ∧
    execute_opcode ((execute_opcode c9Call 0).getD c9Call) 0 ≠ none ∧
    ((execute_opcode ((execute_opcode c9Call 0).getD c9Call) 0).getD c9Call).pc
      = c9Call.pc + 2 ∧
    ((execute_opcode ((execute_opcode c9Call 0).getD c9Call) 0).getD c9Call).sp
      = c9Call.sp :=
  call_return_roundtrip c9Call 0 0 0x2300 0x00EE (by decide) (by decide) (by decide)
    (by decide) (by decide) (by decide)
/-- The `Fx0A` loop never changes the key latch. -/
theorem keyFold_key_states (x : Nat) (l : List Nat) (st : Chip8) :
    (l.foldl (keyStep x) st).key_states = st.key_states := by
  induction l generalizing st with
  | nil => rfl
  | cons a l ih =>
    simp only [List.foldl_cons]
    rw [ih]
    unfold keyStep
    split_ifs <;> rfl

/-- The `Fx0A` loop advances the program counter by 2 per pressed key. -/
theorem keyFold_pc (x : Nat) (l : List Nat) (st : Chip8) (h : st.pc < 65536) :
    (l.foldl (keyStep x) st).pc
      = (st.pc + 2 * l.countP (fun i => st.key_states i)) % 65536 := by
  induction l generalizing st with
  | nil => simp [Nat.mod_eq_of_lt h]
  | cons a l ih =>
    simp only [List.foldl_cons, List.countP_cons]
    by_cases ha : st.key_states a
    · have hst : keyStep x st a
          = { st with V := upd st.V x a, pc := (st.pc + 2) % 65536 } := by
        simp [keyStep, ha]
      have hlt : ({ st with V := upd st.V x a, pc := (st.pc + 2) % 65536 } : Chip8).pc
          < 65536 := by
        show (st.pc + 2) % 65536 < 65536
        omega
      rw [hst, ih _ hlt]
      simp [ha, Nat.mod_add_mod]
      omega
    · have hst : keyStep x st a = st := by simp [keyStep, ha]
      rw [hst, ih st h]
      simp [ha]

/-- The `Fx0A` loop touches no register other than Vx. -/
theorem keyFold_V_ne (x j : Nat) (hj : j ≠ x) (l : List Nat) (st : Chip8) :
    (l.foldl (keyStep x) st).V j = st.V j := by
  induction l generalizing st with
  | nil => rfl
  | cons a l ih =>
    simp only [List.foldl_cons]
    rw [ih]
    unfold keyStep
    split_ifs <;> simp [upd, hj]

/-- Default-shifting form of `getLast?` on a cons cell. -/
theorem getLast?_cons_getD {α : Type} (a d : α) (t : List α) :
    ((a :: t).getLast?).getD d = (t.getLast?).getD a := by
  cases t with
  | nil => rfl
  | cons b t' =>
    rw [List.getLast?_cons_cons]
    cases h : (b :: t').getLast? with
    | none => exact absurd h (by simp)
    | some v => rfl

/-- The `Fx0A` loop leaves in Vx the last pressed key it visited. -/
theorem keyFold_V_x (x : Nat) (l : List Nat) (st : Chip8) :
    (l.foldl (keyStep x) st).V x
      = ((l.filter (fun i => st.key_states i)).getLast?).getD (st.V x) := by
  induction l generalizing st with
  | nil => rfl
  | cons a l ih =>
    simp only [List.foldl_cons, List.filter_cons]
    by_cases ha : st.key_states a
    · have hst : keyStep x st a
          = { st with V := upd st.V x a, pc := (st.pc + 2) % 65536 } := by
        simp [keyStep, ha]
      rw [hst, ih]
      simp only [ha, if_pos]
      rw [getLast?_cons_getD]
      simp [upd]
    · have hst : keyStep x st a = st := by simp [keyStep, ha]
      rw [hst, ih]
      simp [ha]

/-- In `(range n).filter p`, the last element is the largest satisfying
index. -/
theorem getLast?_filter_range_max (p : Nat → Bool) (n j : Nat) (hj : j < n)
    (hpj : p j = true) (hmax : ∀ i, i < n → p i = true → i ≤ j) :
    ((List.range n).filter p).getLast? = some j := by
  induction n with
  | zero => omega
  | succ n ih =>
    rw [List.range_succ, List.filter_append]
    by_cases hpn : p n
    · have hjn : j = n := by
        have h1 := hmax n (by omega) hpn
        omega
      subst hjn
      rw [List.filter_cons, List.filter_nil, if_pos hpn]
      exact List.getLast?_concat _
    · have hjn : j ≠ n := by
        intro hh
        rw [hh] at hpj
        exact hpn hpj
      have hj' : j < n := by omega
      rw [List.filter_cons, List.filter_nil, if_neg hpn, List.append_nil]
      exact ih hj' (fun i hi hpi => hmax i (by omega) hpi)

/-- C10: for a `Fx0A` wait-for-key opcode with k pressed keys, one step
advances the program counter by 2k (unchanged when k = 0, skipping
instructions when k ≥ 2); when at least one key is pressed, Vx ends holding
the largest pressed key index (the loop visits keys in ascending order and
writes Vx once per pressed key); no other register changes. -/
theorem wait_key_semantics (s : Chip8) (r op x : Nat)
    (hop : s.get_opcode = some op)
    (hF : op &&& 0xF000 = 0xF000) (hA : op &&& 0x00FF = 0x000A)
    (hx : x = (op &&& 0x0F00) >>> 8) :
    execute_opcode s r ≠ none ∧
    ((execute_opcode s r).getD s).pc
      = s.pc + 2 * ((List.range 16).countP (fun i => s.key_states i)) ∧
    (∀ j, j < 16 → s.key_states j = true →
      (∀ i, i < 16 → s.key_states i = true → i ≤ j) →
      ((execute_opcode s r).getD s).V x = j) ∧
    (∀ j, j ≠ x → ((execute_opcode s r).getD s).V j = s.V j) := by
  subst hx
  have hpc := get_opcode_pc_lt hop
  have he : execute_opcode s r
      = some ((List.range 16).foldl (keyStep ((op &&& 0x0F00) >>> 8)) s) := by
    simp [execute_opcode, hop, dispatch, hF, hA]
  rw [he]
  simp only [Option.getD_some]
  refine ⟨by simp, ?_, ?_, ?_⟩
  · rw [keyFold_pc _ _ _ (by omega)]
    have hk : (List.range 16).countP (fun i => s.key_states i)
        ≤ (List.range 16).length := List.countP_le_length _
    rw [List.length_range] at hk
    omega
  · intro j hj hpj hmax
    rw [keyFold_V_x]
    rw [getLast?_filter_range_max (fun i => s.key_states i) 16 j hj hpj hmax]
    rfl
  · intro j hj
    exact keyFold_V_ne _ j hj _ s

/-- Witness for C10 at a concrete state with keys 2 and 5 pressed. -/
theorem wait_key_semantics_witness :
    execute_opcode c10Wait 0 ≠ none ∧
    ((execute_opcode c10Wait 0).getD c10Wait).pc
      = c10Wait.pc + 2 * ((List.range 16).countP (fun i => c10Wait.key_states i)) ∧
    (∀ j, j < 16 → c10Wait.key_states j = true →
      (∀ i, i < 16 → c10Wait.key_states i = true → i ≤ j) →
      ((execute_opcode c10Wait 0).getD c10Wait).V ((0xF30A &&& 0x0F00) >>> 8) = j) ∧
    (∀ j, j ≠ (0xF30A &&& 0x0F00) >>> 8 →
      ((execute_opcode c10Wait 0).getD c10Wait).V j = c10Wait.V j) :=
  wait_key_semantics c10Wait 0 0xF30A ((0xF30A &&& 0x0F00) >>> 8) (by decide)
    (by decide) (by decide) rfl
/-- Folding over a list product equals the corresponding nested folds. -/
theorem foldl_list_product {α β γ : Type} (f : γ → α × β → γ) (l₁ : List α)
    (l₂ : List β) (init : γ) :
    (l₁.product l₂).foldl f init
      = l₁.foldl (fun acc a => l₂.foldl (fun acc2 b => f acc2 (a, b)) acc) init := by
  induction l₁ generalizing init with
  | nil => rfl
  | cons a l₁ ih =>
    rw [show (a :: l₁).product l₂ = l₂.map (Prod.mk a) ++ l₁.product l₂ from
      List.product_cons a l₁ l₂]
    rw [List.foldl_append, List.foldl_map, List.foldl_cons, ih]

/-- The nested `Dxyn` loops are the flat fold over the pair list. -/
theorem drawSprite_eq_pairs (mem : Nat → Nat) (I vx vy n : Nat) (gfx : Nat → Bool) :
    drawSprite mem I vx vy n gfx
      = (pairs n).foldl (drawPix mem I vx vy) (gfx, false) := by
  unfold drawSprite pairs
  rw [foldl_list_product]

/-- Membership in the draw iteration domain. -/
theorem mem_pairs {n : Nat} {p : Nat × Nat} : p ∈ pairs n ↔ p.1 < n ∧ p.2 < 8 := by
  rcases p with ⟨a, b⟩
  unfold pairs
  rw [show (List.range n).product (List.range 8)
      = (List.range n).flatMap (fun r => (List.range 8).map (Prod.mk r)) from rfl]
  simp [List.mem_flatMap, List.mem_map, List.mem_range]

/-- The draw iteration domain has no duplicate pairs. -/
theorem pairs_nodup (n : Nat) : (pairs n).Nodup := by
  unfold pairs
  exact List.Nodup.product (List.nodup_range _) (List.nodup_range _)

/-- Distinct in-range pairs hit distinct framebuffer addresses. -/
theorem pixIdx_inj (vx vy : Nat) (p q : Nat × Nat)
    (hp1 : p.1 < 32) (hq1 : q.1 < 32) (hp2 : p.2 < 64) (hq2 : q.2 < 64)
    (h : pixIdx vx vy p = pixIdx vx vy q) : p = q := by
  rcases p with ⟨p1, p2⟩
  rcases q with ⟨q1, q2⟩
  dsimp only [pixIdx] at h
  dsimp only at hp1 hq1 hp2 hq2
  rw [Prod.mk.injEq]
  constructor <;> omega

/-- A sprite bit is 0 or 1. -/
theorem pixBit_le_one (mem : Nat → Nat) (I : Nat) (p : Nat × Nat) (h : p.2 < 8) :
    pixBit mem I p ≤ 1 := by
  unfold pixBit
  rw [Nat.shiftRight_eq_div_pow]
  have h3 : mem (I + p.1) &&& (0x80 >>> p.2) ≤ 2 ^ (7 - p.2) := by
    have h1 : mem (I + p.1) &&& (0x80 >>> p.2) ≤ 0x80 >>> p.2 := Nat.and_le_right
    have h2 : (0x80 >>> p.2) = 2 ^ (7 - p.2) := by
      rcases p with ⟨r, c⟩
      dsimp only at h ⊢
      interval_cases c <;> decide
    omega
  calc (mem (I + p.1) &&& (0x80 >>> p.2)) / 2 ^ (7 - p.2)
      ≤ 2 ^ (7 - p.2) / 2 ^ (7 - p.2) := Nat.div_le_div_right h3
    _ = 1 := Nat.div_self (Nat.pos_pow_of_pos _ (by omega))

/-- XORing the same 0/1 bit into a pixel twice restores the pixel. -/
theorem pixFlip_invol (g : Bool) (b : Nat) (hb : b ≤ 1) :
    ((((if (((if g then (1:Nat) else 0) ^^^ b) == 1 : Bool) then (1:Nat) else 0)
      ^^^ b) == 1) : Bool) = g := by
  rcases Nat.le_one_iff_eq_zero_or_eq_one.mp hb with rfl | rfl <;> cases g <;> decide

/-- A pixel whose address no visited pair hits is unchanged by the fold. -/
theorem drawFold_fst_untouched (mem : Nat → Nat) (I vx vy : Nat)
    (L : List (Nat × Nat)) (acc : (Nat → Bool) × Bool) (a : Nat)
    (h : ∀ p ∈ L, pixIdx vx vy p ≠ a) :
    (L.foldl (drawPix mem I vx vy) acc).1 a = acc.1 a := by
  induction L generalizing acc with
  | nil => rfl
  | cons p L ih =>
    rw [List.foldl_cons, ih _ (fun q hq => h q (List.mem_cons_of_mem _ hq))]
    have hne := h p (List.mem_cons_self p L)
    simp [drawPix, upd, Ne.symm hne]

/-- A pixel hit by exactly one visited pair is XORed with the sprite bit of that pair, read against the framebuffer the fold started from. -/
theorem drawFold_fst_touched (mem : Nat → Nat) (I vx vy : Nat)
    (L₁ L₂ : List (Nat × Nat)) (p : Nat × Nat) (acc : (Nat → Bool) × Bool) (a : Nat)
    (hp : pixIdx vx vy p = a)
    (h1 : ∀ q ∈ L₁, pixIdx vx vy q ≠ a) (h2 : ∀ q ∈ L₂, pixIdx vx vy q ≠ a) :
    ((L₁ ++ p :: L₂).foldl (drawPix mem I vx vy) acc).1 a
      = (((if acc.1 a then (1:Nat) else 0) ^^^ pixBit mem I p) == 1) := by
  rw [List.foldl_append, List.foldl_cons]
  rw [drawFold_fst_untouched mem I vx vy L₂ _ a h2]
  have hacc1 : (L₁.foldl (drawPix mem I vx vy) acc).1 a = acc.1 a :=
    drawFold_fst_untouched mem I vx vy L₁ acc a h1
  simp [drawPix, upd, hp, hacc1]

/-- Drawing the same sprite at the same location twice restores every
framebuffer pixel (XOR involution; every pixel is touched at most once per
draw because `n ≤ 15 < 32` rows and `8 ≤ 64` columns map injectively). -/
theorem drawSprite_involutive (mem : Nat → Nat) (I vx vy n : Nat)
    (g : Nat → Bool) (hn : n < 32) (a : Nat) :
    (drawSprite mem I vx vy n ((drawSprite mem I vx vy n g).1)).1 a = g a := by
  rw [drawSprite_eq_pairs, drawSprite_eq_pairs]
  by_cases htouch : ∃ p ∈ pairs n, pixIdx vx vy p = a
  · obtain ⟨p, hpP, hpa⟩ := htouch
    obtain ⟨L₁, L₂, hsplit⟩ := List.append_of_mem hpP
    have hnd : (L₁ ++ p :: L₂).Nodup := hsplit ▸ pairs_nodup n
    have hdisj := (List.nodup_append.mp hnd).2.2
    have hpL1 : p ∉ L₁ := fun hmem => hdisj hmem (List.mem_cons_self _ _)
    have hpL2 : p ∉ L₂ := (List.nodup_cons.mp (List.nodup_append.mp hnd).2.1).1
    have hpn := mem_pairs.mp hpP
    have huniq : ∀ q ∈ pairs n, pixIdx vx vy q = a → q = p := by
      intro q hq hqa
      have hqn := mem_pairs.mp hq
      exact pixIdx_inj vx vy q p (by omega) (by omega) (by omega) (by omega)
        (hqa.trans hpa.symm)
    have hL1 : ∀ q ∈ L₁, pixIdx vx vy q ≠ a := by
      intro q hq hqa
      have hqP : q ∈ pairs n := by rw [hsplit]; exact List.mem_append_left _ hq
      exact hpL1 (huniq q hqP hqa ▸ hq)
    have hL2 : ∀ q ∈ L₂, pixIdx vx vy q ≠ a := by
      intro q hq hqa
      have hqP : q ∈ pairs n := by
        rw [hsplit]
        exact List.mem_append_right _ (List.mem_cons_of_mem _ hq)
      exact hpL2 (huniq q hqP hqa ▸ hq)
    rw [hsplit]
    rw [drawFold_fst_touched mem I vx vy L₁ L₂ p _ a hpa hL1 hL2]
    rw [drawFold_fst_touched mem I vx vy L₁ L₂ p _ a hpa hL1 hL2]
    exact pixFlip_invol (g a) (pixBit mem I p) (pixBit_le_one mem I p (by omega))
  · push_neg at htouch
    rw [drawFold_fst_untouched mem I vx vy _ _ a htouch]
    rw [drawFold_fst_untouched mem I vx vy _ _ a htouch]

/-- Executing a `Dxyn` draw XOR-blits the sprite and writes the collision
flag to V15. -/
theorem draw_step (s : Chip8) (r op : Nat) (hop : s.get_opcode = some op)
    (hD : op &&& 0xF000 = 0xD000)
    (hbound : s.I + (op &&& 0x000F) ≤ 4096) :
    execute_opcode s r = some { s with
      gfx := (drawSprite s.memory s.I (s.V ((op &&& 0x0F00) >>> 8))
               (s.V ((op &&& 0x00F0) >>> 4)) (op &&& 0x000F) s.gfx).1,
      V := upd s.V 15 (if (drawSprite s.memory s.I (s.V ((op &&& 0x0F00) >>> 8))
               (s.V ((op &&& 0x00F0) >>> 4)) (op &&& 0x000F) s.gfx).2 then 1 else 0),
      pc := (s.pc + 2) % 65536 } := by
  simp [execute_opcode, hop, dispatch, hD, hbound]

/-- C8: executing the same draw opcode twice in immediate succession — with
Vx, Vy, the index register and the sprite bytes identical at both
executions — leaves every framebuffer pixel at its pre-first-draw value,
and the V15 collision flag of the second execution is computed by running
the draw against the framebuffer contents left by the first draw. -/
theorem draw_twice_restores (s s1 : Chip8) (r1 r2 op : Nat)
    (hop : s.get_opcode = some op) (hD : op &&& 0xF000 = 0xD000)
    (hbound : s.I + (op &&& 0x000F) ≤ 4096)
    (he1 : execute_opcode s r1 = some s1)
    (hop1 : s1.get_opcode = some op)
    (hvx : s1.V ((op &&& 0x0F00) >>> 8) = s.V ((op &&& 0x0F00) >>> 8))
    (hvy : s1.V ((op &&& 0x00F0) >>> 4) = s.V ((op &&& 0x00F0) >>> 4))
    (hmemI : s1.I = s.I)
    (hmem : ∀ j, j < op &&& 0x000F → s1.memory (s.I + j) = s.memory (s.I + j)) :
    execute_opcode s1 r2 ≠ none ∧
    (∀ s2, execute_opcode s1 r2 = some s2 →
      (∀ a, s2.gfx a = s.gfx a) ∧
      s2.V 15 = (if (drawSprite s1.memory s1.I (s1.V ((op &&& 0x0F00) >>> 8))
        (s1.V ((op &&& 0x00F0) >>> 4)) (op &&& 0x000F) s1.gfx).2
        then 1 else 0)) := by
  have hd1 := draw_step s r1 op hop hD hbound
  rw [hd1] at he1
  have hrec := Option.some.inj he1
  have hgfx1 : s1.gfx = (drawSprite s.memory s.I (s.V ((op &&& 0x0F00) >>> 8))
      (s.V ((op &&& 0x00F0) >>> 4)) (op &&& 0x000F) s.gfx).1 := by
    rw [← hrec]
  have hmem1 : s1.memory = s.memory := by rw [← hrec]
  have hI1 : s1.I = s.I := by rw [← hrec]
  have hbound2 : s1.I + (op &&& 0x000F) ≤ 4096 := by rw [hI1]; exact hbound
  have hd2 := draw_step s1 r2 op hop1 hD hbound2
  have hn : op &&& 0x000F < 32 := by
    have hle : op &&& 0x000F ≤ 0x000F := Nat.and_le_right
    omega
  refine ⟨by rw [hd2]; simp, ?_⟩
  intro s2 h2
  rw [hd2] at h2
  have hrec2 := Option.some.inj h2
  constructor
  · intro a
    rw [← hrec2]
    show (drawSprite s1.memory s1.I (s1.V ((op &&& 0x0F00) >>> 8))
      (s1.V ((op &&& 0x00F0) >>> 4)) (op &&& 0x000F) s1.gfx).1 a = s.gfx a
    rw [hmem1, hI1, hvx, hvy, hgfx1]
    exact drawSprite_involutive s.memory s.I (s.V ((op &&& 0x0F00) >>> 8))
      (s.V ((op &&& 0x00F0) >>> 4)) (op &&& 0x000F) s.gfx hn a
  · rw [← hrec2]
    show upd s1.V 15 (if (drawSprite s1.memory s1.I (s1.V ((op &&& 0x0F00) >>> 8))
      (s1.V ((op &&& 0x00F0) >>> 4)) (op &&& 0x000F) s1.gfx).2 then 1 else 0) 15
      = _
    simp [upd]
/-- Witness for C8 at a concrete state: `DRW V0, V1, 1` at 0x200 and again at
0x202, sprite byte 0x80 at I = 0x300, over an empty framebuffer. -/
theorem draw_twice_restores_witness :
    execute_opcode ((execute_opcode c8Draw 0).getD c8Draw) 0 ≠ none ∧
    (∀ s2, execute_opcode ((execute_opcode c8Draw 0).getD c8Draw) 0 = some s2 →
      (∀ a, s2.gfx a = c8Draw.gfx a) ∧
      s2.V 15 = (if (drawSprite ((execute_opcode c8Draw 0).getD c8Draw).memory
        ((execute_opcode c8Draw 0).getD c8Draw).I
        (((execute_opcode c8Draw 0).getD c8Draw).V ((0xD011 &&& 0x0F00) >>> 8))
        (((execute_opcode c8Draw 0).getD c8Draw).V ((0xD011 &&& 0x00F0) >>> 4))
        (0xD011 &&& 0x000F)
        ((execute_opcode c8Draw 0).getD c8Draw).gfx).2
        then 1 else 0)) :=
  draw_twice_restores c8Draw ((execute_opcode c8Draw 0).getD c8Draw) 0 0 0xD011
    (by decide) (by decide) (by decide) (by rfl) (by decide) (by decide)
    (by decide) (by decide) (by decide)
